import Mathlib

/-!
Shallow embedding of `django-nationalities` (`src/fields.py`): the
`Nationality` value wrapper, the `NationalityDescriptor` attribute
descriptor, and the `NationalityField` model field.

Python values relevant to this code are embedded as `PyVal`.  The
`NATIONALITIES` lookup table lives in the `nationalities` module, which is
not part of the sources at hand; per the spec it is a fixed ordered list of
(code, name) pairs, so every theorem about it is stated for an arbitrary
association list `table`, which covers the real table whatever its entries.
-/

/-- Embedding of the Python values this code manipulates: `None`, unicode
strings, integers, and `Nationality` wrapper objects (whose `code` attribute
may itself be any value, since the constructor performs no validation). -/
inductive PyVal : Type where
  | none : PyVal
  | str : String → PyVal
  | int : Int → PyVal
  | nationality : PyVal → PyVal
deriving DecidableEq

/-- Python truthiness of an embedded value: `None`, the empty string and `0`
are falsy; a `Nationality` instance (no `__nonzero__`/`__len__`) is truthy. -/
def isFalsy : PyVal → Bool
  | PyVal.none => true
  | PyVal.str s => s == ""
  | PyVal.int n => n == 0
  | PyVal.nationality _ => false

/-- `django.utils.encoding.force_unicode` (equivalently Python 2 `unicode()`)
on an embedded value.  `force_unicode(None)` is the string `"None"`; on a
`Nationality` it invokes `Nationality.__unicode__`, i.e.
`force_unicode(self.code or '')` (fields.py line 24). -/
def force_unicode : PyVal → String
  | PyVal.none => "None"
  | PyVal.str s => s
  | PyVal.int n => toString n
  | PyVal.nationality c => if isFalsy c then "" else force_unicode c

/-- The `Nationality` wrapper (fields.py lines 5-47): holds whatever value
the constructor was given as `code`, with no validation. -/
structure Nationality : Type where
  code : PyVal
deriving DecidableEq

/-- `Nationality.__unicode__` (fields.py lines 23-24):
`force_unicode(self.code or '')`. -/
def Nationality.unicode (n : Nationality) : String :=
  force_unicode (PyVal.nationality n.code)

/-- Python 2 `==` between an arbitrary value and a unicode string, as used in
`self.code == force_unicode(other)` and in the table scan of
`Nationality.name`.  `None == s`, `int == s` are `False`; a `Nationality` on
the left dispatches to its own `__eq__`, i.e. compares its `code` against the
string (`force_unicode` of a string is that string). -/
def pyEqStr : PyVal → String → Bool
  | PyVal.str s, t => s == t
  | PyVal.nationality c, t => pyEqStr c t
  | _, _ => false

/-- Python 2 `cmp` between an arbitrary value and a unicode string, as used
in `cmp(self.code, force_unicode(other))`: `None` and numbers sort before
any string; strings compare lexicographically; a `Nationality` on the left
dispatches to its own `__cmp__`. -/
def pyCmpStr : PyVal → String → Int
  | PyVal.none, _ => -1
  | PyVal.int _, _ => -1
  | PyVal.str s, t => if s < t then -1 else if t < s then 1 else 0
  | PyVal.nationality c, t => pyCmpStr c t

/-- `Nationality.__eq__` (fields.py lines 26-27):
`self.code == force_unicode(other)`. -/
def Nationality.eq (n : Nationality) (other : PyVal) : Bool :=
  pyEqStr n.code (force_unicode other)

/-- `Nationality.__ne__` (fields.py lines 29-30): `not self.__eq__(other)`. -/
def Nationality.ne (n : Nationality) (other : PyVal) : Bool :=
  !(Nationality.eq n other)

/-- `Nationality.__cmp__` (fields.py lines 32-33):
`cmp(self.code, force_unicode(other))`. -/
def Nationality.cmp (n : Nationality) (other : PyVal) : Int :=
  pyCmpStr n.code (force_unicode other)

/-- `Nationality.__hash__` (fields.py lines 35-36): `hash(self.code)`, with
the Python builtin `hash` taken as an uninterpreted parameter `pyhash`. -/
def Nationality.hash (pyhash : PyVal → Int) (n : Nationality) : Int :=
  pyhash n.code

/-- The loop body of `Nationality.name` (fields.py lines 43-47): linear scan
of the (code, name) table, first match wins, `None` when no entry matches. -/
def nameScan (c : PyVal) : List (String × String) → Option String
  | [] => Option.none
  | (code, nm) :: rest => if pyEqStr c code then some nm else nameScan c rest

/-- `Nationality.name` (fields.py lines 38-47), parametric in the
`NATIONALITIES` table it scans. -/
def Nationality.name (table : List (String × String)) (n : Nationality) :
    Option String :=
  nameScan n.code table

/-- A model instance, reduced to its `__dict__`: a total map from attribute
names to embedded values. -/
structure PyInstance : Type where
  dict : String → PyVal

/-- The exception raised by `NationalityDescriptor.__get__` on class access:
an `AttributeError` carrying the field name and owner class name interpolated
into its message (fields.py lines 65-67). -/
inductive PyExc : Type where
  | attributeError (fieldName ownerName : String) : PyExc
deriving DecidableEq

/-- `NationalityDescriptor.__get__` (fields.py lines 63-68): with no
instance, raise `AttributeError`; otherwise wrap the stored dict entry in a
`Nationality`. -/
def NationalityDescriptor.get (fieldName ownerName : String)
    (inst : Option PyInstance) : Except PyExc Nationality :=
  match inst with
  | Option.none => Except.error (PyExc.attributeError fieldName ownerName)
  | some i => Except.ok ⟨i.dict fieldName⟩

/-- `NationalityDescriptor.__set__` (fields.py lines 70-71): store
`force_unicode(value)` in the instance dict under the field name. -/
def NationalityDescriptor.set (fieldName : String) (inst : PyInstance)
    (value : PyVal) : PyInstance :=
  ⟨fun k => if k = fieldName then PyVal.str (force_unicode value) else inst.dict k⟩

/-- The options of a constructed `NationalityField` that the claims concern:
the column width and the choice list. -/
structure NationalityField : Type where
  max_length : Nat
  choices : List (String × String)

/-- `NationalityField.__init__` (fields.py lines 82-86): `kwargs.setdefault`
fills in `max_length = 2` and `choices = NATIONALITIES` (here the parameter
`table`) when the caller supplied none. -/
def NationalityField.init (table : List (String × String))
    (kwMaxLength : Option Nat) (kwChoices : Option (List (String × String))) :
    NationalityField :=
  ⟨kwMaxLength.getD 2, kwChoices.getD table⟩

/-- `NationalityField.get_prep_value` (fields.py lines 105-110): `None` maps
to `None`, anything else to its `unicode()` string. -/
def NationalityField.get_prep_value : PyVal → Option String
  | PyVal.none => Option.none
  | v => some (force_unicode v)

/-- `NationalityField.pre_save` (fields.py lines 100-103):
`Field.pre_save` reads `getattr(model_instance, self.attname)`, which goes
through the descriptor and yields `Nationality(code=stored)`; the result is
then passed to `get_prep_value`. -/
def NationalityField.pre_save (fieldName : String) (inst : PyInstance) :
    Option String :=
  NationalityField.get_prep_value (PyVal.nationality (inst.dict fieldName))

/-- String coercion of a wrapper holding a string code gives back that code
(the `or ''` branch only fires on the empty string, which it returns). -/
theorem force_unicode_nationality_str (c : String) :
    force_unicode (PyVal.nationality (PyVal.str c)) = c := by
  by_cases h : c = "" <;> simp [force_unicode, isFalsy, h]

/-- C1: for every (code, name) pair in the table, the `name` accessor of a
`Nationality` built from that code returns the name of the first pair in
table order whose code matches: it yields `some nm'` where the table splits
as `l₁ ++ (c, nm') :: l₂` with no pair of `l₁` carrying code `c`. -/
theorem C1_name_first_match (table : List (String × String)) (c nm : String)
    (h : (c, nm) ∈ table) :
    ∃ nm' l₁ l₂, Nationality.name table ⟨PyVal.str c⟩ = some nm' ∧
      table = l₁ ++ (c, nm') :: l₂ ∧ ∀ p ∈ l₁, p.1 ≠ c := by
  induction table with
  | nil => cases h
  | cons hd tl ih =>
    obtain ⟨d, m⟩ := hd
    by_cases hc : c = d
    · subst hc
      exact ⟨m, [], tl, by simp [Nationality.name, nameScan, pyEqStr], rfl,
        by simp⟩
    · have htl : (c, nm) ∈ tl := by
        rcases List.mem_cons.mp h with h1 | h1
        · cases h1; exact absurd rfl hc
        · exact h1
      obtain ⟨nm', l₁, l₂, hname, hsplit, hfirst⟩ := ih htl
      refine ⟨nm', (d, m) :: l₁, l₂, ?_, ?_, ?_⟩
      · simpa [Nationality.name, nameScan, pyEqStr, hc] using hname
      · simp [hsplit]
      · intro p hp
        rcases List.mem_cons.mp hp with h1 | h1
        · subst h1; simpa using fun he => hc he.symm
        · exact hfirst p h1

/-- Witness for C1 at a concrete table and code. -/
theorem C1_name_first_match_witness :
    ∃ nm' l₁ l₂,
      Nationality.name [("HU", "Hungarian")] ⟨PyVal.str "HU"⟩ = some nm' ∧
      [("HU", "Hungarian")] = l₁ ++ ("HU", nm') :: l₂ ∧ ∀ p ∈ l₁, p.1 ≠ "HU" :=
  C1_name_first_match [("HU", "Hungarian")] "HU" "Hungarian" (by simp)

/-- C3: for every code string absent from the table, the `name` accessor
returns `None` (the scan is a total function: absence is a silent result,
not an error). -/
theorem C3_name_absent (table : List (String × String)) (c : String)
    (h : ∀ p ∈ table, p.1 ≠ c) :
    Nationality.name table ⟨PyVal.str c⟩ = Option.none := by
  induction table with
  | nil => rfl
  | cons hd tl ih =>
    obtain ⟨d, m⟩ := hd
    have hd1 : ¬ (c = d) := fun he => h (d, m) (by simp) he.symm
    have htl := ih fun p hp => h p (List.mem_cons_of_mem _ hp)
    simpa [Nationality.name, nameScan, pyEqStr, hd1] using htl

/-- Witness for C3 at a concrete table and an absent, malformed code. -/
theorem C3_name_absent_witness :
    Nationality.name [("HU", "Hungarian")] ⟨PyVal.str "??"⟩ = Option.none :=
  C3_name_absent [("HU", "Hungarian")] "??" (by simp)

/-- C2, counterexample: two wrappers whose codes are both null do NOT compare
equal: `Nationality(None) == Nationality(None)` evaluates
`None == force_unicode(other)` where the coercion yields the empty string,
and `None == u''` is false. -/
theorem C2_counterexample :
    Nationality.eq ⟨PyVal.none⟩ (PyVal.nationality PyVal.none) = false := by
  rfl

/-- C2, amended: wrappers with equal codes always hash identically; when the
shared code is a string, equality comparison returns true; when both codes
are null, equality comparison returns false. -/
theorem C2_eq_hash (pyhash : PyVal → Int) (a b : Nationality)
    (h : a.code = b.code) :
    Nationality.hash pyhash a = Nationality.hash pyhash b ∧
    (∀ s, a.code = PyVal.str s →
      Nationality.eq a (PyVal.nationality b.code) = true) ∧
    (a.code = PyVal.none →
      Nationality.eq a (PyVal.nationality b.code) = false) := by
  refine ⟨by simp [Nationality.hash, h], ?_, ?_⟩
  · intro s hs
    by_cases he : s = "" <;>
      simp [Nationality.eq, force_unicode, pyEqStr, isFalsy, ← h, hs, he]
  · intro hn
    simp [Nationality.eq, force_unicode, pyEqStr, isFalsy, ← h, hn]

/-- Witness for C2's amended theorem at equal string codes. -/
theorem C2_eq_hash_witness :
    Nationality.eq ⟨PyVal.str "HU"⟩ (PyVal.nationality (PyVal.str "HU")) =
      true :=
  (C2_eq_hash (fun _ => 0) ⟨PyVal.str "HU"⟩ ⟨PyVal.str "HU"⟩ rfl).2.1 "HU" rfl

/-- C4: string conversion of a wrapper with code "HU" yields "HU"; with a
null code it yields the empty string. -/
theorem C4_unicode_conversion :
    Nationality.unicode ⟨PyVal.str "HU"⟩ = "HU" ∧
    Nationality.unicode ⟨PyVal.none⟩ = "" := by
  exact ⟨by decide, rfl⟩

/-- C5: writing a `Nationality` wrapper with string code `c` stores the plain
string `c` in the instance dict (attribute assignment); `get_prep_value` on
such a wrapper yields the plain string; and `pre_save` after such an
assignment hands the plain string toward storage. -/
theorem C5_write_coerces_to_code (c field : String) (inst : PyInstance) :
    (NationalityDescriptor.set field inst
        (PyVal.nationality (PyVal.str c))).dict field = PyVal.str c ∧
    NationalityField.get_prep_value (PyVal.nationality (PyVal.str c)) =
      some c ∧
    NationalityField.pre_save field
        (NationalityDescriptor.set field inst
          (PyVal.nationality (PyVal.str c))) = some c := by
  refine ⟨?_, ?_, ?_⟩ <;>
    simp [NationalityDescriptor.set, NationalityField.get_prep_value,
      NationalityField.pre_save, force_unicode_nationality_str]

/-- C6: accessing the descriptor with no instance (class access) yields the
`AttributeError` carrying the field name and owner class name, for every
field name and owner class. -/
theorem C6_class_access_raises (fieldName ownerName : String) :
    NationalityDescriptor.get fieldName ownerName Option.none =
      Except.error (PyExc.attributeError fieldName ownerName) := rfl

/-- C7: equality and ordering comparison act on the operand only through its
string coercion: comparing against any operand `v` equals comparing against
the plain string `force_unicode v`, with no restriction on `v` (arbitrary
operands, valid country code or not). -/
theorem C7_compare_via_string_coercion (n : Nationality) (v : PyVal) :
    Nationality.eq n v = Nationality.eq n (PyVal.str (force_unicode v)) ∧
    Nationality.cmp n v = Nationality.cmp n (PyVal.str (force_unicode v)) := by
  exact ⟨rfl, rfl⟩

/-- C8: a field constructed with no explicit options has `max_length = 2` and
the lookup table as its `choices`, and `get_prep_value` maps `None` to `None`
(the column admits null). -/
theorem C8_field_defaults (table : List (String × String)) :
    (NationalityField.init table Option.none Option.none).max_length = 2 ∧
    (NationalityField.init table Option.none Option.none).choices = table ∧
    NationalityField.get_prep_value PyVal.none = Option.none := by
  exact ⟨rfl, rfl, rfl⟩

/-- C9: after setting the attribute to any value `v`, reading it back yields
a `Nationality` whose code is the string coercion of `v`; in particular,
setting a wrapper with string code `c` and reading back yields a wrapper
that compares equal to the original. -/
theorem C9_descriptor_round_trip (field owner : String) (inst : PyInstance)
    (v : PyVal) :
    NationalityDescriptor.get field owner
        (some (NationalityDescriptor.set field inst v)) =
      Except.ok ⟨PyVal.str (force_unicode v)⟩ ∧
    (∀ c : String, v = PyVal.nationality (PyVal.str c) →
      Nationality.eq ⟨PyVal.str (force_unicode v)⟩ v = true) := by
  constructor
  · simp [NationalityDescriptor.get, NationalityDescriptor.set]
  · intro c hv
    subst hv
    simp [Nationality.eq, pyEqStr, force_unicode_nationality_str]

/-- Witness for C9 at a concrete instance and wrapper value. -/
theorem C9_descriptor_round_trip_witness :
    Nationality.eq
        ⟨PyVal.str (force_unicode (PyVal.nationality (PyVal.str "HU")))⟩
        (PyVal.nationality (PyVal.str "HU")) = true :=
  (C9_descriptor_round_trip "nationality" "Person" ⟨fun _ => PyVal.none⟩
    (PyVal.nationality (PyVal.str "HU"))).2 "HU" rfl

/-- C10: setting the attribute to `None` stores the literal string "None"
(the coercion is unconditional), and a subsequent read yields a wrapper whose
code is the string "None". -/
theorem C10_set_none_stores_string_None (field owner : String)
    (inst : PyInstance) :
    (NationalityDescriptor.set field inst PyVal.none).dict field =
      PyVal.str "None" ∧
    NationalityDescriptor.get field owner
        (some (NationalityDescriptor.set field inst PyVal.none)) =
      Except.ok ⟨PyVal.str "None"⟩ := by
  constructor <;>
    simp [NationalityDescriptor.set, NationalityDescriptor.get, force_unicode]
